import Mathlib

/-!
Shallow embedding of `src/data/generate_product_attributes.py` (the Attribute
Deriver of the product-attribute generation script).  Pandas delivers each
numeric SQL column value as a Python float, with SQL NULL appearing as NaN;
string columns deliver a Python string or None.  We model a float as either an
exact rational or NaN, and a general Python cell value as None / NaN / a
number / a string.  Every embedded function is a total Lean function, mirroring
the fact that the Python functions catch their own failure modes.
-/

/-- A Python float as it appears in a pandas numeric column: an exact number
(modelled as a rational) or NaN.  SQL NULL in a numeric column becomes NaN. -/
inductive PyFloat
  | num (q : ℚ)
  | nan
deriving DecidableEq

/-- A general Python cell value: None, float NaN, a number, or a string. -/
inductive PyVal
  | vnone
  | vnan
  | vnum (q : ℚ)
  | vstr (s : String)
deriving DecidableEq

/-- `pd.isna` on a float: true exactly for NaN. -/
def isna : PyFloat → Bool
  | .nan => true
  | .num _ => false

/-- `pd.isna` on a general value: true for None and NaN. -/
def isnaV : PyVal → Bool
  | .vnone => true
  | .vnan => true
  | .vnum _ => false
  | .vstr _ => false

/-- Python `x <= c` for a float `x` and an exact constant: any comparison with
NaN is false. -/
def pyLe : PyFloat → ℚ → Bool
  | .nan, _ => false
  | .num q, c => q ≤ c

/-- Python `x < c` for a float `x` and an exact constant: any comparison with
NaN is false. -/
def pyLt : PyFloat → ℚ → Bool
  | .nan, _ => false
  | .num q, c => q < c

/-- Rational multiplication computed directly on numerators and denominators.
(The kernel cannot evaluate `Rat.mul`, so the embedding uses this computable
form; `ratMul_eq` below proves it equal to `·*·` on `ℚ`.) -/
def ratMul (a b : ℚ) : ℚ :=
  mkRat (a.num * b.num) (a.den * b.den)

/-- Rational division computed directly on numerators and denominators,
with `a / 0 = 0` as in Lean.  `ratDiv_eq` below proves it equal to `·/·`. -/
def ratDiv (a b : ℚ) : ℚ :=
  mkRat (a.num * b.num.sign * b.den) (a.den * b.num.natAbs)

/-- Multiplication of a float by an exact constant; NaN propagates. -/
def pyMulF : PyFloat → ℚ → PyFloat
  | .nan, _ => .nan
  | .num q, c => .num (ratMul q c)

/-- Division of a float by a nonzero exact constant; NaN propagates. -/
def pyDivByF : PyFloat → ℚ → PyFloat
  | .nan, _ => .nan
  | .num q, c => .num (ratDiv q c)

/-- Division of two floats; NaN propagates.  (In this development it is only
applied with a divisor already checked to be a positive number, so the Python
`ZeroDivisionError` branch is unreachable.) -/
def pyDivF : PyFloat → PyFloat → PyFloat
  | .nan, _ => .nan
  | _, .nan => .nan
  | .num p, .num c => .num (ratDiv p c)

/-- Floor of a rational, computed with floored integer division. -/
def ratFloor (q : ℚ) : ℤ :=
  Int.fdiv q.num q.den

/-- Round a rational to the nearest integer, ties to the even integer — the
rounding mode of Python's builtin `round`.  With `f = ⌊q⌋`, the value
`num2 = 2·(q - f)·den` compares against `den` exactly when the fractional
part `q - f` compares against `1/2`. -/
def roundHalfEven (q : ℚ) : ℤ :=
  let f := ratFloor q
  let num2 := 2 * (q.num - f * (q.den : ℤ))
  if num2 < (q.den : ℤ) then f
  else if (q.den : ℤ) < num2 then f + 1
  else if f % 2 = 0 then f else f + 1

/-- Python `round(x, 2)` on an exact value: scale by 100, round half to even,
scale back. -/
def pyRound2 (q : ℚ) : ℚ :=
  mkRat (roundHalfEven (mkRat (q.num * 100) q.den)) 100

/-- Python `round(x, 2)` on a float: `round(nan, 2)` is NaN. -/
def pyRound2F : PyFloat → PyFloat
  | .nan => .nan
  | .num q => .num (pyRound2 q)

/-- Numeric value of a list of decimal digit characters. -/
def digitsVal (l : List Char) : ℕ :=
  l.foldl (fun a c => 10 * a + (c.toNat - 48)) 0

/-- Python `str.isspace` characters relevant to `str.strip` / `float`:
space, tab, newline, carriage return, vertical tab, form feed. -/
def pyIsSpace (c : Char) : Bool :=
  c = ' ' ∨ c = '\t' ∨ c = '\n' ∨ c = '\r' ∨ c = '\x0b' ∨ c = '\x0c'

/-- Python `str.strip()`: drop leading and trailing whitespace. -/
def pyStrip (l : List Char) : List Char :=
  ((l.dropWhile pyIsSpace).reverse.dropWhile pyIsSpace).reverse

/-- Python `str.upper()` on one ASCII character (unit codes are ASCII). -/
def pyUpperChar (c : Char) : Char :=
  if 'a' ≤ c ∧ c ≤ 'z' then Char.ofNat (c.toNat - 32) else c

/-- Python `str.upper()` (ASCII). -/
def pyUpper (l : List Char) : List Char :=
  l.map pyUpperChar

/-- Python `s.startswith(p)`: `p` is a prefix of `s`. -/
def listStarts : List Char → List Char → Bool
  | _, [] => true
  | [], _ :: _ => false
  | c :: cs, p :: ps => c = p && listStarts cs ps

/-- Python's builtin `float` on a string, restricted to plain decimal literals:
optional surrounding whitespace, an optional sign, then digits with an
optional fractional part (at least one digit overall).  Returns `none` when the
string does not parse, mirroring the `ValueError` the callers catch.
(Exponent, infinity and NaN spellings are outside the inputs this script
meets and are not modelled.) -/
def parseFloat? (s : String) : Option ℚ :=
  let cs := pyStrip s.toList
  let signed : ℤ × List Char :=
    match cs with
    | c :: rest =>
      if c = '-' then (-1, rest)
      else if c = '+' then (1, rest)
      else (1, cs)
    | [] => (1, [])
  let sign := signed.1
  let body := signed.2
  let intPart := body.takeWhile Char.isDigit
  let rest1 := body.dropWhile Char.isDigit
  match rest1 with
  | [] =>
    if intPart = [] then none
    else some (mkRat (sign * (digitsVal intPart : ℤ)) 1)
  | c :: fracRest =>
    if c = '.' then
      let fracPart := fracRest.takeWhile Char.isDigit
      let rest2 := fracRest.dropWhile Char.isDigit
      if rest2 = [] ∧ (intPart ≠ [] ∨ fracPart ≠ []) then
        some (mkRat
          (sign * ((digitsVal intPart * 10 ^ fracPart.length + digitsVal fracPart : ℕ) : ℤ))
          (10 ^ fracPart.length))
      else none
    else none

/-- Python's builtin `float` on a general value: a number is returned as is,
NaN stays NaN, a string is parsed, and None raises `TypeError` (returned here
as `none`; every caller catches it). -/
def pyFloat? : PyVal → Option PyFloat
  | .vnum q => some (.num q)
  | .vnan => some .nan
  | .vstr s => (parseFloat? s).map PyFloat.num
  | .vnone => none

/-- Python truthiness of an optional month number: None and 0 are falsy. -/
def truthyNat : Option ℕ → Bool
  | none => false
  | some n => n ≠ 0

/-- Embedding of `get_season`: season name for an optional month number;
`month in [12, 1, 2]` is false for None, so an absent month falls through to
the final `else` and yields None. -/
def get_season (month : Option ℕ) : Option String :=
  if month = some 12 ∨ month = some 1 ∨ month = some 2 then some ("Winter")
  else if month = some 3 ∨ month = some 4 ∨ month = some 5 then some ("Spring")
  else if month = some 6 ∨ month = some 7 ∨ month = some 8 then some ("Summer")
  else if month = some 9 ∨ month = some 10 ∨ month = some 11 then some ("Fall")
  else none

/-- Embedding of `get_price_band`: price band from the list price, inclusive
upper bounds.  Every comparison with NaN is false, so a NaN price falls
through to the final `else`. -/
def get_price_band (price : PyFloat) : String :=
  if pyLe price 100 then "0-100"
  else if pyLe price 500 then "100-500"
  else if pyLe price 1500 then "500-1500"
  else "1500+"

/-- Embedding of `get_brand_tier`: brand tier from the list price, strict
upper bounds.  Every comparison with NaN is false, so a NaN price falls
through to the final `else`. -/
def get_brand_tier (price : PyFloat) : String :=
  if pyLt price 100 then "Budget"
  else if pyLt price 500 then "Standard"
  else if pyLt price 1500 then "Premium"
  else "Luxury"

/-- Embedding of `get_marketing_segment`: the fixed category-to-segment
dictionary, with `dict.get` returning None for any other or absent key. -/
def get_marketing_segment (category : Option String) : Option String :=
  match category with
  | some c =>
    if c = "Bikes" then some ("Performance")
    else if c = "Components" then some ("Components")
    else if c = "Clothing" then some ("Apparel")
    else if c = "Accessories" then some ("Accessories")
    else none
  | none => none

/-- Embedding of `parse_size`: `float(size_value)` with `ValueError` and
`TypeError` caught and turned into None. -/
def parse_size (size_value : PyVal) : Option PyFloat :=
  pyFloat? size_value

/-- Embedding of `get_size_category`: Small / Medium / Large by parsed size,
None when the size does not parse. -/
def get_size_category (size_value : PyVal) : Option String :=
  match parse_size size_value with
  | none => none
  | some sz =>
    if pyLe sz 48 then some ("Small")
    else if pyLe sz 56 then some ("Medium")
    else some ("Large")

/-- Embedding of `convert_weight_to_kg`: None for an NA weight; otherwise the
unit code is stripped, uppercased (an NA unit becomes the empty string) and
matched by prefix — LB means pounds, then G means grams, anything else leaves
the weight unchanged — and the result is rounded to 2 decimals.  A weight that
`float` cannot parse raises `ValueError`, caught and turned into None. -/
def convert_weight_to_kg (weight : PyVal) (unit_code : Option String) : Option PyFloat :=
  if isnaV weight then none
  else
    match pyFloat? weight with
    | none => none
    | some weight_val =>
      let unit := match unit_code with
        | some s => pyUpper (pyStrip s.toList)
        | none => []
      if listStarts unit (['L', 'B']) then
        some (pyRound2F (pyMulF weight_val (mkRat 453592 1000000)))
      else if listStarts unit (['G']) then
        some (pyRound2F (pyDivByF weight_val (mkRat 1000 1)))
      else some (pyRound2F weight_val)

/-- Embedding of `calculate_price_ratio`: None when the standard cost is NA or
`standard_cost <= 0`; otherwise `round(list_price / standard_cost, 2)`.  After
the guard the divisor is a positive number, so the caught `ZeroDivisionError`
branch is unreachable; a NaN list price propagates to a NaN ratio. -/
def calculate_price_ratio (list_price standard_cost : PyFloat) : Option PyFloat :=
  if isna standard_cost || pyLe standard_cost 0 then none
  else some (pyRound2F (pyDivF list_price standard_cost))

/-- A date as pandas delivers it from a SQL datetime column: the `.year` and
`.month` accessors of a Timestamp (month is always 1..12 in real data, but
nothing here relies on that). -/
structure PyDate where
  year : ℤ
  month : ℕ
deriving DecidableEq

/-- One input row of the Reader's join (one per product).  Numeric columns are
floats with NULL as NaN; string columns are Python strings with NULL as None;
datetime columns are Timestamps with NULL as NaT (modelled as `Option PyDate`).
`Size` and `Weight` are kept as general cell values because the functions
consuming them defend against arbitrary values. -/
structure ProductBase where
  ProductID : ℕ
  product_name : String
  ListPrice : PyFloat
  StandardCost : PyFloat
  Size : PyVal
  SizeUnitMeasureCode : Option String
  Weight : PyVal
  WeightUnitMeasureCode : Option String
  SellStartDate : Option PyDate
  SellEndDate : Option PyDate
  SafetyStockLevel : ℕ
  ReorderPoint : ℕ
  subcategory_name : Option String
  category_name : Option String
deriving DecidableEq

/-- One output record of `derive_attributes` (the dict appended to `results`). -/
structure ProductAttributes where
  ProductID : ℕ
  MarketingSegment : Option String
  BrandTier : String
  PriceBand : String
  OnlineOnly : Bool
  Season : Option String
  LaunchYear : Option ℤ
  SizeCategory : Option String
  WeightKg : Option PyFloat
  IsDiscontinued : Bool
  SafetyStockLevel : ℕ
  ReorderPoint : ℕ
  MsrpToCostRatio : Option PyFloat
deriving DecidableEq

/-- The loop body of `derive_attributes` for a single row.  `pd.to_datetime`
applied to a value already delivered by pandas as Timestamp-or-NaT is the
identity, so `sell_start` and `sell_end` are the row's date fields.  The
`season = get_season(month) if month else None` guard uses Python truthiness
of `month`. -/
def deriveRow (row : ProductBase) : ProductAttributes :=
  let sell_start := row.SellStartDate
  let sell_end := row.SellEndDate
  let launch_year := match sell_start with
    | some d => some d.year
    | none => none
  let month := match sell_start with
    | some d => some d.month
    | none => none
  let season := if truthyNat month then get_season month else none
  let price := row.ListPrice
  let price_band := get_price_band price
  let brand_tier := get_brand_tier price
  let marketing_segment := get_marketing_segment row.category_name
  let online_only := decide (row.category_name = some ("Accessories")) && pyLe price 100
  let is_discontinued := sell_end.isSome
  let size_category := get_size_category row.Size
  let weight_kg := convert_weight_to_kg row.Weight row.WeightUnitMeasureCode
  let msrp_ratio := calculate_price_ratio price row.StandardCost
  { ProductID := row.ProductID
    MarketingSegment := marketing_segment
    BrandTier := brand_tier
    PriceBand := price_band
    OnlineOnly := online_only
    Season := season
    LaunchYear := launch_year
    SizeCategory := size_category
    WeightKg := weight_kg
    IsDiscontinued := is_discontinued
    SafetyStockLevel := row.SafetyStockLevel
    ReorderPoint := row.ReorderPoint
    MsrpToCostRatio := msrp_ratio }

/-- Embedding of `derive_attributes`: the `for _, row in df.iterrows()` loop
appends one output record per input row, in input order. -/
def derive_attributes (rows : List ProductBase) : List ProductAttributes :=
  rows.map deriveRow

/-- The ambient state of one script run that the derivation could in principle
observe: the wall-clock time at which the run happens and the process
environment variables.  The derivation code reads neither (environment
variables are consulted only by the Reader's connection setup), which the
runner below makes explicit by ignoring this record. -/
structure RunEnv where
  now : PyDate
  envVars : List (String × String)

/-- One run of the derivation stage in an ambient environment.  Faithful to
the source: `derive_attributes` uses only the rows' field values, so the
environment parameter is unused. -/
def run_derivation (_env : RunEnv) (rows : List ProductBase) : List ProductAttributes :=
  derive_attributes rows

/-- A base row with every optional field absent, used to build the concrete
rows appearing in the theorems below. -/
def baseRow : ProductBase :=
  { ProductID := 1
    product_name := "P"
    ListPrice := .nan
    StandardCost := .nan
    Size := .vnone
    SizeUnitMeasureCode := none
    Weight := .vnan
    WeightUnitMeasureCode := none
    SellStartDate := none
    SellEndDate := none
    SafetyStockLevel := 4
    ReorderPoint := 3
    subcategory_name := none
    category_name := none }

/-- Sanity check of the embedding: `ratMul` is multiplication on `ℚ`. -/
theorem ratMul_eq (a b : ℚ) : ratMul a b = a * b :=
  (Rat.mul_eq_mkRat a b).symm

/-- Sanity check of the embedding: `ratDiv` is division on `ℚ`
(with `a / 0 = 0`). -/
theorem ratDiv_eq (a b : ℚ) : ratDiv a b = a / b := by
  rcases lt_trichotomy b.num 0 with h | h | h
  · have hn : (b.num.natAbs : ℤ) = -b.num := by
      rw [Int.natCast_natAbs, abs_of_neg h]
    rw [ratDiv, Int.sign_eq_neg_one_of_neg h, Rat.mkRat_eq_divInt, Rat.div_def']
    have hd : ((a.den * b.num.natAbs : ℕ) : ℤ) = -((a.den : ℤ) * b.num) := by
      push_cast [hn]; ring
    rw [hd, Rat.divInt_neg]
    congr 1
    ring
  · have hb : b = 0 := Rat.num_eq_zero.mp h
    subst hb
    simp [ratDiv]
  · have hn : (b.num.natAbs : ℤ) = b.num := Int.natAbs_of_nonneg h.le
    rw [ratDiv, Int.sign_eq_one_of_pos h, mul_one, Rat.mkRat_eq_divInt, Rat.div_def']
    congr 1
    push_cast [hn]
    ring

/-- Sanity check of the embedding: the scaling step inside `pyRound2` is
multiplication by 100. -/
theorem pyRound2_scale (q : ℚ) : mkRat (q.num * 100) q.den = q * 100 := by
  rw [Rat.mul_eq_mkRat]
  norm_num

/-- C2: for every numeric list price, `get_price_band` uses inclusive
boundaries (≤ 100 / ≤ 500 / ≤ 1500) while `get_brand_tier` uses exclusive
boundaries (< 100 / < 500 / < 1500); at exactly 100 the band is "0-100" with
tier "Standard", at 99.99 the tier is "Budget", and at exactly 1500 the band
is "500-1500" with tier "Luxury". -/
theorem C2_price_band_brand_tier_boundaries :
    (∀ q : ℚ, get_price_band (.num q) =
      if q ≤ 100 then "0-100" else if q ≤ 500 then "100-500"
      else if q ≤ 1500 then "500-1500" else "1500+") ∧
    (∀ q : ℚ, get_brand_tier (.num q) =
      if q < 100 then "Budget" else if q < 500 then "Standard"
      else if q < 1500 then "Premium" else "Luxury") ∧
    get_price_band (.num 100) = "0-100" ∧
    get_brand_tier (.num 100) = "Standard" ∧
    get_brand_tier (.num (mkRat 9999 100)) = "Budget" ∧
    get_price_band (.num 1500) = "500-1500" ∧
    get_brand_tier (.num 1500) = "Luxury" := by
  refine ⟨fun q => ?_, fun q => ?_, by decide, by decide, by decide, by decide, by decide⟩
  · simp [get_price_band, pyLe]
  · simp [get_brand_tier, pyLt]

/-- C3: `derive_attributes` produces exactly one output row per input row,
with the same `ProductID`, in the same relative order. -/
theorem C3_row_preservation : ∀ rows : List ProductBase,
    (derive_attributes rows).length = rows.length ∧
    (derive_attributes rows).map ProductAttributes.ProductID
      = rows.map ProductBase.ProductID := by
  intro rows
  refine ⟨by simp [derive_attributes], ?_⟩
  simp only [derive_attributes, List.map_map]
  rfl

/-- C7: `IsDiscontinued` is true exactly when the sell-end date is present —
the derivation takes no clock input, so any present date (future included)
yields true and an absent date yields false. -/
theorem C7_is_discontinued : ∀ (row : ProductBase) (d : PyDate),
    (deriveRow row).IsDiscontinued = row.SellEndDate.isSome ∧
    (deriveRow { row with SellEndDate := some d }).IsDiscontinued = true ∧
    (deriveRow { row with SellEndDate := none }).IsDiscontinued = false :=
  fun _ _ => ⟨rfl, rfl, rfl⟩

/-- C8: the derivation is deterministic — two runs on identical input rows
yield identical output sequences, independently of the wall-clock time and the
process environment of the run. -/
theorem C8_deterministic : ∀ (e₁ e₂ : RunEnv) (rows : List ProductBase),
    run_derivation e₁ rows = run_derivation e₂ rows :=
  fun _ _ _ => rfl

/-- C9: a NaN list price makes every comparison false, so `get_price_band`
falls through to "1500+" and `get_brand_tier` to "Luxury" — not an empty
result — and the derived row carries those values. -/
theorem C9_nan_price_falls_through :
    (∀ c : ℚ, pyLe PyFloat.nan c = false ∧ pyLt PyFloat.nan c = false) ∧
    get_price_band .nan = "1500+" ∧
    get_brand_tier .nan = "Luxury" ∧
    ProductAttributes.PriceBand (deriveRow { baseRow with ListPrice := .nan }) = "1500+" ∧
    ProductAttributes.BrandTier (deriveRow { baseRow with ListPrice := .nan }) = "Luxury" :=
  ⟨fun _ => ⟨rfl, rfl⟩, rfl, rfl, rfl, rfl⟩

/-- C4: `OnlineOnly` is true exactly when the category name equals
"Accessories" and the list price is ≤ 100 (NaN compares false); at the
boundary, Accessories at 100 is true and at 100.01 false, and any other or
absent category is false. -/
theorem C4_online_only :
    (∀ row : ProductBase, ((deriveRow row).OnlineOnly = true ↔
        (row.category_name = some ("Accessories") ∧ pyLe row.ListPrice 100 = true))) ∧
    (deriveRow { baseRow with category_name := some ("Accessories"), ListPrice := .num 100 }).OnlineOnly = true ∧
    (deriveRow { baseRow with category_name := some ("Accessories"), ListPrice := .num (mkRat 10001 100) }).OnlineOnly = false ∧
    (deriveRow { baseRow with category_name := some ("Bikes"), ListPrice := .num 50 }).OnlineOnly = false ∧
    (deriveRow { baseRow with category_name := none, ListPrice := .num 50 }).OnlineOnly = false := by
  refine ⟨fun row => ?_, by decide, by decide, by decide, by decide⟩
  have h : (deriveRow row).OnlineOnly
      = (decide (row.category_name = some ("Accessories")) && pyLe row.ListPrice 100) := rfl
  rw [h, Bool.and_eq_true, decide_eq_true_eq]

/-- C6: `MsrpToCostRatio` is empty exactly when the standard cost is NA or
≤ 0 (the only failure modes reachable from float inputs); otherwise it equals
the list price divided by the standard cost, rounded to 2 decimal places —
300 / 100 gives 3.0. -/
theorem C6_msrp_cost_ratio :
    (∀ p c : PyFloat, calculate_price_ratio p c = none ↔
      (isna c = true ∨ pyLe c 0 = true)) ∧
    (∀ p c : ℚ, pyLe (.num c) 0 = false →
      calculate_price_ratio (.num p) (.num c) = some (.num (pyRound2 (p / c)))) ∧
    calculate_price_ratio (.num 300) (.num 100) = some (.num 3) := by
  refine ⟨fun p c => ?_, fun p c h => ?_, by decide⟩
  · rcases c with q | _
    · rw [ calculate_price_ratio]
      by_cases hq : q ≤ 0
      · simp [isna, pyLe, hq]
      · simp [isna, pyLe, hq]
    · simp [ calculate_price_ratio, isna]
  · rw [ calculate_price_ratio]
    simp [isna, h, pyDivF, pyRound2F, ratDiv_eq]

/-- Witness for C6 at the concrete input list price 300, standard cost 100. -/
theorem C6_msrp_cost_ratio_witness :
    pyLe (.num 100) 0 = false ∧
    calculate_price_ratio (.num 300) (.num 100) = some (.num (pyRound2 (300 / 100))) :=
  ⟨by decide, C6_msrp_cost_ratio.2.1 300 100 (by decide)⟩

/-- C5: `WeightKg` is empty for an absent weight; otherwise the unit code,
normalized case-insensitively, selects by prefix — LB means ×0.453592, G
(when LB does not match) means ÷1000, anything else (an absent unit included)
leaves the weight unchanged — rounded to 2 decimals; an unparseable weight is
empty.  Concretely: 10 LB → 4.54, 1000 G → 1.0, 5 with empty or absent
unit → 5.0. -/
theorem C5_weight_kg :
    (∀ u : Option String,
      convert_weight_to_kg .vnan u = none ∧ convert_weight_to_kg .vnone u = none) ∧
    (∀ (q : ℚ) (s : String), listStarts (pyUpper (pyStrip s.toList)) (['L', 'B']) = true →
      convert_weight_to_kg (.vnum q) (some s)
        = some (.num (pyRound2 (q * mkRat 453592 1000000)))) ∧
    (∀ (q : ℚ) (s : String), listStarts (pyUpper (pyStrip s.toList)) (['L', 'B']) = false →
      listStarts (pyUpper (pyStrip s.toList)) (['G']) = true →
      convert_weight_to_kg (.vnum q) (some s) = some (.num (pyRound2 (q / 1000)))) ∧
    (∀ (q : ℚ) (s : String), listStarts (pyUpper (pyStrip s.toList)) (['L', 'B']) = false →
      listStarts (pyUpper (pyStrip s.toList)) (['G']) = false →
      convert_weight_to_kg (.vnum q) (some s) = some (.num (pyRound2 q))) ∧
    (∀ q : ℚ, convert_weight_to_kg (.vnum q) none = some (.num (pyRound2 q))) ∧
    (∀ (s : String) (u : Option String), parseFloat? s = none →
      convert_weight_to_kg (.vstr s) u = none) ∧
    convert_weight_to_kg (.vnum 10) (some ("LB")) = some (.num (mkRat 227 50)) ∧
    convert_weight_to_kg (.vnum 1000) (some ("G")) = some (.num 1) ∧
    convert_weight_to_kg (.vnum 5) (some ("")) = some (.num 5) ∧
    convert_weight_to_kg (.vnum 5) none = some (.num 5) := by
  refine ⟨fun u => ⟨rfl, rfl⟩, fun q s h => ?_, fun q s h1 h2 => ?_, fun q s h1 h2 => ?_,
    fun q => rfl, fun s u h => ?_, by decide, by decide, by decide, by decide⟩
  · simp only [String.toList] at h
    simp [convert_weight_to_kg, isnaV, pyFloat?, pyMulF, pyRound2F, h, ratMul_eq]
  · simp only [String.toList] at h1 h2
    have h1000 : (mkRat 1000 1 : ℚ) = 1000 := by norm_num
    simp [convert_weight_to_kg, isnaV, pyFloat?, pyDivByF, pyRound2F, h1, h2, ratDiv_eq, h1000]
  · simp only [String.toList] at h1 h2
    simp [convert_weight_to_kg, isnaV, pyFloat?, pyRound2F, h1, h2]
  · simp [convert_weight_to_kg, isnaV, pyFloat?, h]

/-- Witness for C5: the LB branch applied at weight 10 with unit code "LB". -/
theorem C5_weight_kg_witness :
    listStarts (pyUpper (pyStrip ("LB").toList)) (['L', 'B']) = true ∧
    convert_weight_to_kg (.vnum 10) (some ("LB"))
      = some (.num (pyRound2 (10 * mkRat 453592 1000000))) :=
  ⟨by decide, C5_weight_kg.2.1 10 ("LB") (by decide)⟩

/-- C10: the unit code is stripped of surrounding whitespace and uppercased
before the prefix match, so " lb " converts as pounds and "g " as grams; and
any unit whose normalized form starts with "LB" takes the pounds branch, never
the grams branch. -/
theorem C10_unit_normalization :
    pyUpper (pyStrip (" lb ").toList) = ['L', 'B'] ∧
    pyUpper (pyStrip ("g ").toList) = ['G'] ∧
    convert_weight_to_kg (.vnum 10) (some (" lb ")) = some (.num (mkRat 227 50)) ∧
    convert_weight_to_kg (.vnum 1000) (some ("g ")) = some (.num 1) ∧
    convert_weight_to_kg (.vnum 10) (some ("lbs")) = some (.num (mkRat 227 50)) ∧
    (∀ (q : ℚ) (s : String), listStarts (pyUpper (pyStrip s.toList)) (['L', 'B']) = true →
      convert_weight_to_kg (.vnum q) (some s)
        = some (.num (pyRound2 (q * mkRat 453592 1000000)))) := by
  refine ⟨by decide, by decide, by decide, by decide, by decide, fun q s h => ?_⟩
  simp only [String.toList] at h
  simp [convert_weight_to_kg, isnaV, pyFloat?, pyMulF, pyRound2F, h, ratMul_eq]

/-- Witness for C10: the normalized-LB clause applied at weight 10 with the
unnormalized unit code " lb ". -/
theorem C10_unit_normalization_witness :
    listStarts (pyUpper (pyStrip (" lb ").toList)) (['L', 'B']) = true ∧
    convert_weight_to_kg (.vnum 10) (some (" lb "))
      = some (.num (pyRound2 (10 * mkRat 453592 1000000))) :=
  ⟨by decide, C10_unit_normalization.2.2.2.2.2 10 (" lb ") (by decide)⟩

/-- C1 counterexample: the claim "an absent or unparseable input yields an
empty/absent result for that field … in particular … for get_price_band and
get_brand_tier when the list price is absent or not a number" fails — on a
row whose list price is NaN (how pandas presents an absent price), the
derived PriceBand is the non-empty string "1500+" and the derived BrandTier
is the non-empty string "Luxury"; neither function even has an empty/absent
result in its range. -/
theorem C1_counterexample :
    ProductAttributes.PriceBand (deriveRow { baseRow with ListPrice := .nan }) = "1500+" ∧
    ProductAttributes.PriceBand (deriveRow { baseRow with ListPrice := .nan }) ≠ "" ∧
    ProductAttributes.BrandTier (deriveRow { baseRow with ListPrice := .nan }) = "Luxury" ∧
    ProductAttributes.BrandTier (deriveRow { baseRow with ListPrice := .nan }) ≠ "" := by
  decide

/-- C1 amended: every per-field derivation is a total function (each embedded
function is total by construction, mirroring the caught exceptions in the
source), and an absent or unparseable input degrades to an empty result for
MarketingSegment, Season, LaunchYear, SizeCategory, WeightKg and
MsrpToCostRatio — but an absent (NaN) list price makes get_price_band return
"1500+" and get_brand_tier return "Luxury", not an empty result. -/
theorem C1_amended_totality :
    get_marketing_segment none = none ∧
    get_season none = none ∧
    get_size_category .vnone = none ∧
    (∀ s : String, parseFloat? s = none → get_size_category (.vstr s) = none) ∧
    (∀ u : Option String,
      convert_weight_to_kg .vnan u = none ∧ convert_weight_to_kg .vnone u = none) ∧
    (∀ (s : String) (u : Option String), parseFloat? s = none →
      convert_weight_to_kg (.vstr s) u = none) ∧
    (∀ p : PyFloat, calculate_price_ratio p .nan = none) ∧
    get_price_band .nan = "1500+" ∧
    get_brand_tier .nan = "Luxury" ∧
    (∀ row : ProductBase, row.SellStartDate = none →
      (deriveRow row).Season = none ∧ (deriveRow row).LaunchYear = none) := by
  refine ⟨rfl, rfl, rfl, fun s h => ?_, fun u => ⟨rfl, rfl⟩, fun s u h => ?_,
    fun p => rfl, rfl, rfl, fun row h => ?_⟩
  · simp [get_size_category, parse_size, pyFloat?, h]
  · simp [convert_weight_to_kg, isnaV, pyFloat?, h]
  · constructor
    · simp [deriveRow, h, truthyNat]
    · simp [deriveRow, h]

/-- Witness for C1 at the concrete inputs: unparseable size and weight "M",
unit "LB", and the all-absent row `baseRow`. -/
theorem C1_amended_totality_witness :
    parseFloat? ("M") = none ∧
    get_size_category (.vstr ("M")) = none ∧
    convert_weight_to_kg (.vstr ("M")) (some ("LB")) = none ∧
    baseRow.SellStartDate = none ∧
    (deriveRow baseRow).Season = none ∧
    (deriveRow baseRow).LaunchYear = none :=
  ⟨by decide,
   C1_amended_totality.2.2.2.1 ("M") (by decide),
   C1_amended_totality.2.2.2.2.2.1 ("M") (some ("LB")) (by decide),
   by decide,
   (C1_amended_totality.2.2.2.2.2.2.2.2.2 baseRow (by decide)).1,
   (C1_amended_totality.2.2.2.2.2.2.2.2.2 baseRow (by decide)).2⟩
